import Mathlib

/-!
Shallow embedding of the two analysis scripts in this repository:

* `pressure_sensitivity.py` (directory "2025 - Total and static pressure PTC10")
* `temperature_sensitivity.py` (directory "2025 - Total and static temperature PTC10")

Python float arithmetic is modelled by exact rational arithmetic over `ℚ`.
Python's `ZeroDivisionError` (raised by `x / 0.0`) is modelled by functions
that divide by a caller-supplied quantity returning `Option ℚ`, with `none`
standing for the raised, uncaught error.  `numpy.linspace` is modelled by
`linspace` below.
-/

/-- Model of `numpy.linspace a b n` for `n ≥ 2`: the `n` samples
`a + (b - a) * i / (n - 1)` for `i = 0, ..., n - 1`. -/
def linspace (a b : ℚ) (n : ℕ) : List ℚ :=
  (List.range n).map (fun i : ℕ => a + (b - a) * (i : ℚ) / ((n : ℚ) - 1))

/-- The velocity sweep `velocities = np.linspace(0, 300, 100)`, defined
identically in both scripts. -/
def velocities : List ℚ :=
  linspace 0 300 100

namespace PressureSensitivity

/-- Source: `static_to_total_pressure(P_static, V, rho)` in
`pressure_sensitivity.py`, returning `P_static + 0.5 * rho * V**2`. -/
def static_to_total_pressure (P_static V rho : ℚ) : ℚ :=
  P_static + 0.5 * rho * V ^ 2

/-- Source: `total_to_static_pressure(P_total, V, rho)` in
`pressure_sensitivity.py`, returning `P_total - 0.5 * rho * V**2`. -/
def total_to_static_pressure (P_total V rho : ℚ) : ℚ :=
  P_total - 0.5 * rho * V ^ 2

/-- The constant `P_static = 1.0` (bara) of the pressure script. -/
def P_static : ℚ := 1.0

/-- The sweep loop of the pressure script, building
`P_relative_diff_total_static` by appending one entry per velocity sample.
The density `rho` (obtained once from the external GERG-2008 call
`gas_properties['rho']`) is a parameter of the model.  The local
`P_total = static_to_total_pressure(P_static*10**5, V, rho)/10**5` is
inlined in the appended expression
`100 * (P_total - P_static) / P_static`. -/
def P_relative_diff_total_static (rho : ℚ) : List ℚ :=
  velocities.foldl (fun acc V =>
    acc ++ [100 * (static_to_total_pressure (P_static * 10 ^ 5) V rho / 10 ^ 5 - P_static)
      / P_static]) []

end PressureSensitivity

namespace TemperatureSensitivity

/-- Source: `static_to_total_temperature(T_static, V, Cp)` in
`temperature_sensitivity.py`, returning `T_static + 0.5 * V**2 / Cp`.
Dividing by `Cp = 0` raises `ZeroDivisionError` in Python, modelled by
`none`. -/
def static_to_total_temperature (T_static V Cp : ℚ) : Option ℚ :=
  if Cp = 0 then none else some (T_static + 0.5 * V ^ 2 / Cp)

/-- Source: `total_to_static_temperature(T_total, V, Cp)` in
`temperature_sensitivity.py`, returning `T_total - 0.5 * V**2 / Cp`.
Dividing by `Cp = 0` raises `ZeroDivisionError` in Python, modelled by
`none`. -/
def total_to_static_temperature (T_total V Cp : ℚ) : Option ℚ :=
  if Cp = 0 then none else some (T_total - 0.5 * V ^ 2 / Cp)

/-- Source: `measured_to_total_temperature(T_measured, V, Cp, rf=0.65)` in
`temperature_sensitivity.py`, returning `T_measured - (1 - rf) * 0.5 * V**2 / Cp`.
The recovery factor `rf` (default `0.65` at the Python call site) is taken
as an explicit argument here.  Dividing by `Cp = 0` raises
`ZeroDivisionError` in Python (the numerator is evaluated first but the
division still faults), modelled by `none`. -/
def measured_to_total_temperature (T_measured V Cp rf : ℚ) : Option ℚ :=
  if Cp = 0 then none else some (T_measured - (1 - rf) * 0.5 * V ^ 2 / Cp)

/-- The constant `T_total = 293.15` (Kelvin) of the temperature script. -/
def T_total : ℚ := 293.15

/-- The constant `Cp = 2080` (J/(kg*K)) of the temperature script. -/
def Cp : ℚ := 2080

/-- The constant `rf = 0.65` (recovery factor) of the temperature script. -/
def rf : ℚ := 0.65

/-- One iteration of the temperature script's sweep loop restricted to the
`T_diff_measured_static` accumulator:
`T_static = total_to_static_temperature(T_total, V, Cp)` (which can raise),
`T_measured = T_static + (1 - rf) * 0.5 * V**2 / Cp` (a second division by
`Cp`, which again can raise), and the loop appends
`T_measured - T_static`. -/
def temperatureStep (acc : List ℚ) (V : ℚ) : Option (List ℚ) :=
  (total_to_static_temperature T_total V Cp).bind (fun T_static =>
    if Cp = 0 then none else
      some (acc ++ [T_static + (1 - rf) * 0.5 * V ^ 2 / Cp - T_static]))

/-- The temperature script's sweep over `velocities`, producing
`T_diff_measured_static` (or `none` if an iteration raised). -/
def T_diff_measured_static : Option (List ℚ) :=
  velocities.foldlM temperatureStep []

end TemperatureSensitivity

section Helpers

lemma foldl_append_map {α β : Type} (f : α → β) (xs : List α) (acc : List β) :
    xs.foldl (fun a x => a ++ [f x]) acc = acc ++ xs.map f := by
  induction xs generalizing acc with
  | nil => simp
  | cons x xs ih => simp [ih]

lemma getD_map_range (f : ℕ → ℚ) (n i : ℕ) (h : i < n) :
    ((List.range n).map f).getD i 0 = f i := by
  rw [List.getD_eq_getElem?_getD, List.getElem?_map, List.getElem?_range h]
  rfl

lemma getD_map_of_lt (f : ℚ → ℚ) (l : List ℚ) (i : ℕ) (h : i < l.length) :
    (l.map f).getD i 0 = f (l.getD i 0) := by
  rw [List.getD_eq_getElem?_getD, List.getD_eq_getElem?_getD, List.getElem?_map,
    List.getElem?_eq_getElem h]
  rfl

lemma velocities_length : velocities.length = 100 := by
  simp [velocities, linspace]

lemma velocities_getD (i : ℕ) (h : i < 100) :
    velocities.getD i 0 = 300 * i / 99 := by
  simp only [velocities, linspace]
  rw [getD_map_range _ _ _ h]
  norm_num

lemma P_relative_diff_eq_map (rho : ℚ) :
    PressureSensitivity.P_relative_diff_total_static rho =
      velocities.map (fun V =>
        100 * (PressureSensitivity.static_to_total_pressure
            (PressureSensitivity.P_static * 10 ^ 5) V rho / 10 ^ 5
          - PressureSensitivity.P_static) / PressureSensitivity.P_static) := by
  rw [PressureSensitivity.P_relative_diff_total_static, foldl_append_map]
  rfl

lemma P_relative_diff_getD (rho : ℚ) (i : ℕ) (h : i < 100) :
    (PressureSensitivity.P_relative_diff_total_static rho).getD i 0 =
      rho * (300 * i / 99) ^ 2 / 2000 := by
  rw [P_relative_diff_eq_map, getD_map_of_lt _ _ _ (velocities_length ▸ h),
    velocities_getD i h]
  simp only [PressureSensitivity.static_to_total_pressure, PressureSensitivity.P_static]
  norm_num
  ring_nf

lemma Cp_ne_zero : TemperatureSensitivity.Cp ≠ 0 := by
  norm_num [TemperatureSensitivity.Cp]

lemma temperatureStep_eq (acc : List ℚ) (V : ℚ) :
    TemperatureSensitivity.temperatureStep acc V =
      some (acc ++ [(1 - TemperatureSensitivity.rf) * 0.5 * V ^ 2
        / TemperatureSensitivity.Cp]) := by
  rw [TemperatureSensitivity.temperatureStep,
    TemperatureSensitivity.total_to_static_temperature, if_neg Cp_ne_zero,
    Option.some_bind, if_neg Cp_ne_zero]
  congr 2
  ring_nf

lemma T_diff_foldlM (xs : List ℚ) (acc : List ℚ) :
    List.foldlM TemperatureSensitivity.temperatureStep acc xs =
      some (acc ++ xs.map (fun V =>
        (1 - TemperatureSensitivity.rf) * 0.5 * V ^ 2 / TemperatureSensitivity.Cp)) := by
  induction xs generalizing acc with
  | nil => simp
  | cons x xs ih => simp [List.foldlM_cons, temperatureStep_eq, ih]

lemma T_diff_eq_map :
    TemperatureSensitivity.T_diff_measured_static =
      some (velocities.map (fun V =>
        (1 - TemperatureSensitivity.rf) * 0.5 * V ^ 2 / TemperatureSensitivity.Cp)) := by
  rw [TemperatureSensitivity.T_diff_measured_static, T_diff_foldlM]
  rfl

end Helpers

/-- C1: for every P, every V ≥ 0 and every rho > 0,
`total_to_static_pressure (static_to_total_pressure P V rho) V rho = P`:
the two pressure conversions are exact algebraic inverses. -/
theorem pressure_round_trip (P V rho : ℚ) (_hV : 0 ≤ V) (_hrho : 0 < rho) :
    PressureSensitivity.total_to_static_pressure
      (PressureSensitivity.static_to_total_pressure P V rho) V rho = P := by
  simp only [PressureSensitivity.static_to_total_pressure,
    PressureSensitivity.total_to_static_pressure]
  ring

theorem pressure_round_trip_witness :
    PressureSensitivity.total_to_static_pressure
      (PressureSensitivity.static_to_total_pressure 2 3 4) 3 4 = 2 :=
  pressure_round_trip 2 3 4 (by norm_num) (by norm_num)

/-- C2: for every T, every V ≥ 0 and every Cp ≠ 0, converting static to total
temperature and back returns T: the two temperature conversions are exact
inverses (composition through `Option.bind` since each can raise on Cp = 0). -/
theorem temperature_round_trip (T V c : ℚ) (_hV : 0 ≤ V) (hc : c ≠ 0) :
    (TemperatureSensitivity.static_to_total_temperature T V c).bind
      (fun x => TemperatureSensitivity.total_to_static_temperature x V c) = some T := by
  rw [TemperatureSensitivity.static_to_total_temperature, if_neg hc, Option.some_bind,
    TemperatureSensitivity.total_to_static_temperature, if_neg hc]
  congr 1
  ring

theorem temperature_round_trip_witness :
    (TemperatureSensitivity.static_to_total_temperature 293 50 2080).bind
      (fun x => TemperatureSensitivity.total_to_static_temperature x 50 2080) = some 293 :=
  temperature_round_trip 293 50 2080 (by norm_num) (by norm_num)

/-- C3: the velocity sweep used by both drivers has exactly 100 points, its
first element is 0, its last element (index 99) is 300, and consecutive
differences are all equal (to the constant 300/99): linear spacing between 0
and 300 inclusive. -/
theorem velocities_linspace_spec (i : ℕ) (h : i + 1 < 100) :
    velocities.length = 100 ∧ velocities.getD 0 0 = 0 ∧
      velocities.getD 99 0 = 300 ∧
      velocities.getD (i + 1) 0 - velocities.getD i 0 = 300 / 99 := by
  refine ⟨velocities_length, ?_, ?_, ?_⟩
  · rw [velocities_getD 0 (by norm_num)]
    norm_num
  · rw [velocities_getD 99 (by norm_num)]
    norm_num
  · rw [velocities_getD (i + 1) h, velocities_getD i (by omega)]
    push_cast
    ring

theorem velocities_linspace_spec_witness :
    velocities.length = 100 ∧ velocities.getD 0 0 = 0 ∧
      velocities.getD 99 0 = 300 ∧
      velocities.getD (0 + 1) 0 - velocities.getD 0 0 = 300 / 99 :=
  velocities_linspace_spec 0 (by norm_num)

/-- C4: the pressure driver's result list has the same length as the velocity
list, and its i-th entry is `100 * (P_total_i - P_static) / P_static` where
`P_total_i` is `static_to_total_pressure` applied to the fixed static
pressure (in Pa, then converted back to bara) and the i-th velocity sample,
with the single density `rho` obtained once at static conditions. -/
theorem pressure_sweep_spec (rho : ℚ) (i : ℕ) (h : i < 100) :
    (PressureSensitivity.P_relative_diff_total_static rho).length = velocities.length ∧
      (PressureSensitivity.P_relative_diff_total_static rho).getD i 0 =
        100 * (PressureSensitivity.static_to_total_pressure
            (PressureSensitivity.P_static * 10 ^ 5) (velocities.getD i 0) rho / 10 ^ 5
          - PressureSensitivity.P_static) / PressureSensitivity.P_static := by
  constructor
  · rw [P_relative_diff_eq_map]
    simp
  · rw [P_relative_diff_eq_map, getD_map_of_lt _ _ _ (velocities_length ▸ h)]

theorem pressure_sweep_spec_witness :
    (PressureSensitivity.P_relative_diff_total_static 1).length = velocities.length ∧
      (PressureSensitivity.P_relative_diff_total_static 1).getD 5 0 =
        100 * (PressureSensitivity.static_to_total_pressure
            (PressureSensitivity.P_static * 10 ^ 5) (velocities.getD 5 0) 1 / 10 ^ 5
          - PressureSensitivity.P_static) / PressureSensitivity.P_static :=
  pressure_sweep_spec 1 5 (by norm_num)

/-- C5: the temperature driver's recorded difference list succeeds (no
division fault, since Cp = 2080), aligns with the velocity list, and its i-th
entry equals `(1 - rf) * 0.5 * V_i ^ 2 / Cp`, where the static temperature
came from `total_to_static_temperature` on the fixed total temperature and
the measured temperature added back the recovery-factor-weighted kinetic
correction. -/
theorem temperature_sweep_spec (i : ℕ) (h : i < 100) :
    ∃ l, TemperatureSensitivity.T_diff_measured_static = some l ∧
      l.length = velocities.length ∧
      l.getD i 0 = (1 - TemperatureSensitivity.rf) * 0.5 * (velocities.getD i 0) ^ 2
        / TemperatureSensitivity.Cp := by
  refine ⟨_, T_diff_eq_map, by simp, ?_⟩
  rw [getD_map_of_lt _ _ _ (velocities_length ▸ h)]

theorem temperature_sweep_spec_witness :
    ∃ l, TemperatureSensitivity.T_diff_measured_static = some l ∧
      l.length = velocities.length ∧
      l.getD 7 0 = (1 - TemperatureSensitivity.rf) * 0.5 * (velocities.getD 7 0) ^ 2
        / TemperatureSensitivity.Cp :=
  temperature_sweep_spec 7 (by norm_num)

/-- C6 counterexample: with rf = 1 but Cp = 0, the Python function raises
`ZeroDivisionError` (modelled `none`) instead of returning T_measured, so the
claim "for every V and every Cp" fails at Cp = 0. -/
theorem measured_rf_one_cp_zero_cex :
    TemperatureSensitivity.measured_to_total_temperature 293 100 0 1 ≠ some 293 := by
  rw [TemperatureSensitivity.measured_to_total_temperature, if_pos rfl]
  simp

/-- C6 (amended): with recovery factor rf = 1,
`measured_to_total_temperature T V Cp 1` returns T unchanged for every V and
every Cp ≠ 0. -/
theorem measured_rf_one (T V c : ℚ) (hc : c ≠ 0) :
    TemperatureSensitivity.measured_to_total_temperature T V c 1 = some T := by
  rw [TemperatureSensitivity.measured_to_total_temperature, if_neg hc]
  congr 1
  ring

theorem measured_rf_one_witness :
    TemperatureSensitivity.measured_to_total_temperature 293 100 2080 1 = some 293 :=
  measured_rf_one 293 100 2080 (by norm_num)

/-- C7: `static_to_total_pressure 100000 100 0.8 = 104000` exactly (the
spec's example scenario, exact also in binary floating point). -/
theorem example_scenario_pressure :
    PressureSensitivity.static_to_total_pressure 100000 100 0.8 = 104000 := by
  norm_num [PressureSensitivity.static_to_total_pressure]

/-- C8: with Cp = 0 (and V ≠ 0, as the claim restricts) all three temperature
conversion functions raise an unhandled division-by-zero error (modelled
`none`), and with Cp ≠ 0 none of them raises (each returns `some`). -/
theorem temperature_division_by_zero (T V c r : ℚ) :
    (c = 0 → V ≠ 0 →
      TemperatureSensitivity.static_to_total_temperature T V c = none ∧
      TemperatureSensitivity.total_to_static_temperature T V c = none ∧
      TemperatureSensitivity.measured_to_total_temperature T V c r = none) ∧
    (c ≠ 0 →
      (TemperatureSensitivity.static_to_total_temperature T V c).isSome = true ∧
      (TemperatureSensitivity.total_to_static_temperature T V c).isSome = true ∧
      (TemperatureSensitivity.measured_to_total_temperature T V c r).isSome = true) := by
  constructor
  · intro hc _
    simp [TemperatureSensitivity.static_to_total_temperature,
      TemperatureSensitivity.total_to_static_temperature,
      TemperatureSensitivity.measured_to_total_temperature, hc]
  · intro hc
    simp [TemperatureSensitivity.static_to_total_temperature,
      TemperatureSensitivity.total_to_static_temperature,
      TemperatureSensitivity.measured_to_total_temperature, hc]

theorem temperature_division_by_zero_witness :
    TemperatureSensitivity.static_to_total_temperature 293 100 0 = none :=
  ((temperature_division_by_zero 293 100 0 0.65).1 rfl (by norm_num)).1

/-- C9: assuming the density rho returned by the property lookup is strictly
positive, the pressure driver's relative-difference series is strictly
increasing in index. -/
theorem pressure_sweep_strict_mono (rho : ℚ) (hrho : 0 < rho) (i : ℕ)
    (h : i + 1 < 100) :
    (PressureSensitivity.P_relative_diff_total_static rho).getD i 0 <
      (PressureSensitivity.P_relative_diff_total_static rho).getD (i + 1) 0 := by
  rw [P_relative_diff_getD rho i (by omega), P_relative_diff_getD rho (i + 1) h]
  have h0 : (0 : ℚ) ≤ (i : ℚ) := Nat.cast_nonneg i
  push_cast
  have key : (300 * (i : ℚ) / 99) ^ 2 < (300 * ((i : ℚ) + 1) / 99) ^ 2 := by
    have ha : (0 : ℚ) ≤ 300 * (i : ℚ) / 99 := by positivity
    have hb : 300 * (i : ℚ) / 99 < 300 * ((i : ℚ) + 1) / 99 := by linarith
    nlinarith
  have hmul := mul_lt_mul_of_pos_left key hrho
  linarith

theorem pressure_sweep_strict_mono_witness :
    (PressureSensitivity.P_relative_diff_total_static 1).getD 0 0 <
      (PressureSensitivity.P_relative_diff_total_static 1).getD (0 + 1) 0 :=
  pressure_sweep_strict_mono 1 (by norm_num) 0 (by norm_num)

/-- C10: for every T_total, every V and every Cp > 0,
`total_to_static_temperature` succeeds and its value is at most T_total, with
equality exactly when V = 0. -/
theorem static_le_total_temperature (T V c : ℚ) (hc : 0 < c) :
    ∃ x, TemperatureSensitivity.total_to_static_temperature T V c = some x ∧
      x ≤ T ∧ (x = T ↔ V = 0) := by
  have hc' : c ≠ 0 := ne_of_gt hc
  refine ⟨T - 0.5 * V ^ 2 / c,
    by rw [TemperatureSensitivity.total_to_static_temperature, if_neg hc'], ?_, ?_⟩
  · have hnn : (0 : ℚ) ≤ 0.5 * V ^ 2 / c := by positivity
    linarith
  · constructor
    · intro hx
      have h0 : 0.5 * V ^ 2 / c = 0 := by linarith
      rcases div_eq_zero_iff.mp h0 with h1 | h1
      · have h2 : V ^ 2 = 0 := by linarith
        exact (pow_eq_zero_iff (by norm_num)).mp h2
      · exact absurd h1 hc'
    · intro hV
      rw [hV]
      norm_num

theorem static_le_total_temperature_witness :
    ∃ x, TemperatureSensitivity.total_to_static_temperature 300 0 1 = some x ∧
      x ≤ 300 ∧ (x = 300 ↔ (0 : ℚ) = 0) :=
  static_le_total_temperature 300 0 1 (by norm_num)
